import Mathlib

/-!
Shallow embedding of `src/main.py` of the repository
`opdatering-af-kommunekode-paa-leverandoer-i-nexus`.

The script has two entry points:
* `populate_queue` filters the supplier list to `active is True` records,
  skips names on the exclusion list, resolves each reference, and enqueues a
  payload `koe_data = \x7bleverandoer_id, kommunekode, postnummer\x7d`; its
  exception handler formats the local variable `koe_data` into the message of
  a raised `WorkItemError`.
* `process_workqueue` drains the queue; per item it calls
  `kontroller_kommunekode` (postal-code check + mapping lookup, with
  best-effort reports), `kontroller_leverandoer` (find the reference by id in
  the bulk list fetched at run start, then re-resolve the live record), and
  conditionally updates the live record and tracks a task; `WorkItemError`
  is caught per item and the item failed with the error message.

Danish identifiers from the source are transliterated where Lean's lexer
rejects the original letters (`leverandør` becomes `leverandoer`, `kø_data`
becomes `koe_data`).

Python dynamic values that matter to the claims (postal codes and codes that
may be JSON strings or numbers, `None` postal codes, Python `==` across
types, Python `str(...)`) are modelled by the small value type `PyVal`.
External effects (update calls, tracking signals, report calls, error logs,
`item.fail`) are modelled as an emitted event trace; the Nexus platform is a
list of supplier records used as the store read by `hent_fra_reference` and
written by `opdater_leverandoer`.
-/

namespace KommuneKode

/-- A Python value as it occurs in the queue payloads and the JSON mapping:
`None`, a string, or a number. -/
inductive PyVal where
  | none : PyVal
  | str : String → PyVal
  | int : Int → PyVal
deriving DecidableEq, Repr

/-- Python `str(...)` on the modelled values. -/
def pyStr : PyVal → String
  | PyVal.none => "None"
  | PyVal.str s => s
  | PyVal.int n => toString n

/-- Python `==` on the modelled values: equal only within a type; a string
never equals a number. -/
def pyEq : PyVal → PyVal → Bool
  | PyVal.none, PyVal.none => true
  | PyVal.str s, PyVal.str t => s == t
  | PyVal.int a, PyVal.int b => a == b
  | _, _ => false

/-- An entry of the static JSON mapping `postnumre_med_kommunekode.json`:
fields `Postnr` and `Kommunenr`, each a string or a number. -/
structure MappingEntry where
  Postnr : PyVal
  Kommunenr : PyVal
deriving DecidableEq, Repr

/-- The queue payload built by `populate_queue` (source name `kø_data`). -/
structure QueueData where
  leverandoer_id : PyVal
  kommunekode : PyVal
  postnummer : PyVal
deriving DecidableEq, Repr

/-- A supplier address record: `administrativeAreaCode` and `postalCode`. -/
structure Address where
  administrativeAreaCode : PyVal
  postalCode : PyVal
deriving DecidableEq, Repr

/-- A supplier record. The bulk fetch `hent_leverandører` returns
`id`/`name`/`active` (with `active` absent modelled as `Option.none`);
the resolved record adds the address. -/
structure Leverandoer where
  id : PyVal
  name : String
  active : Option Bool
  address : Address
deriving DecidableEq, Repr

/-- A dequeued work item: queue-assigned `reference` label plus `data`. -/
structure WItem where
  reference : String
  data : QueueData
deriving DecidableEq, Repr

/-- Externally visible effects of processing, in order of occurrence. -/
inductive Event where
  | report (group : String) (payload : List (String × PyVal)) : Event
  | update (lev : Leverandoer) : Event
  | track (navn : String) : Event
  | logErr (msg : String) : Event
deriving DecidableEq, Repr

/-- Terminal state of a dequeued item: `item.fail(msg)` was called, or the
`with item` block was left without a failure. -/
inductive ItemStatus where
  | done : ItemStatus
  | failed (msg : String) : ItemStatus
deriving DecidableEq, Repr

def Event.isUpdate : Event → Bool
  | Event.update _ => true
  | _ => false

def Event.isTrack : Event → Bool
  | Event.track _ => true
  | _ => false

/-- `proces_navn` from the source. -/
def proces_navn : String := "Opdatering af kommunekode paa leverandoer i Nexus"

/-- The match test of the lookup on line 120 of `src/main.py`:
`str(list_item["Postnr"]) == data["postnummer"]` — Python `str` applied to
the entry's `Postnr` only, compared by Python `==` with the raw payload
value. -/
def codeMatches (entry : MappingEntry) (postnummer : PyVal) : Bool :=
  pyEq (PyVal.str (pyStr entry.Postnr)) postnummer

/-- The lookup predicate as §4.4 step 2 of the spec words it: string
equality after normalizing BOTH sides to string. Stated only to compare
with `codeMatches`. -/
def specMatches (entry : MappingEntry) (postnummer : PyVal) : Bool :=
  pyStr entry.Postnr == pyStr postnummer

/-- `kontroller_kommunekode` from `src/main.py`. Besides the returned
`Option String` it yields the events it emits. `reportOk` says whether the
`report(...)` call succeeds; when it throws, the exception is caught and
logged (`finally: return None` runs either way). -/
def kontroller_kommunekode (item : WItem) (data : QueueData)
    (mapping : List MappingEntry) (reportOk : Bool) :
    Option String × List Event :=
  if data.postnummer = PyVal.none then
    (Option.none,
      Event.report "Manglende postnummer"
        [("Leverandoer", PyVal.str item.reference)] ::
      (if reportOk then []
       else [Event.logErr
         ("Fejl ved rapportering for leverandoer " ++ item.reference ++
          " uden postnummer")]))
  else
    match mapping.find? (fun list_item => codeMatches list_item data.postnummer) with
    | Option.none =>
      (Option.none,
        Event.report "Postnummer uden kommunekode"
          [("Leverandoer", PyVal.str item.reference),
           ("Postnummer", data.postnummer)] ::
        (if reportOk then []
         else [Event.logErr
           ("Fejl ved rapportering for leverandoer " ++ item.reference ++
            " med postnummer " ++ pyStr data.postnummer)]))
    | Option.some kommunekode =>
      (Option.some (pyStr kommunekode.Kommunenr), [])

/-- `nexus.hent_fra_reference` during processing: resolve a reference to the
live record currently held by the platform (`store`), looked up by Python
`==` on `id`. (During a run the reference always originates from the store,
so the default branch is never reached on the inputs the loop produces.) -/
def hent_fra_reference (store : List Leverandoer) (ref : Leverandoer) :
    Leverandoer :=
  (store.find? (fun r => pyEq r.id ref.id)).getD ref

/-- `kontroller_leverandoer` from `src/main.py`: find the reference by id in
the bulk list `leverandoerer` fetched at run start; `Option.none` if absent,
otherwise the re-resolved live record. -/
def kontroller_leverandoer (store : List Leverandoer) (data : QueueData)
    (leverandoerer : List Leverandoer) : Option Leverandoer :=
  match leverandoerer.find? (fun rel => pyEq rel.id data.leverandoer_id) with
  | Option.none => Option.none
  | Option.some rel => Option.some (hent_fra_reference store rel)

/-- Per-item behavior of the external calls: whether the `report` call
succeeds, and whether `opdater_leverandoer` throws a `WorkItemError`
(`Option.some msg` is the thrown error's message). -/
structure Behavior where
  reportOk : Bool
  updateThrows : Option String
deriving DecidableEq, Repr

/-- `opdater_leverandoer` persisting a record: the store entry with the same
id (Python `==`) is replaced. -/
def opdater_leverandoer (store : List Leverandoer) (lev : Leverandoer) :
    List Leverandoer :=
  store.map (fun r => if pyEq r.id lev.id then lev else r)

/-- The body of the `with item:` block of `process_workqueue` for one
dequeued item: returns the platform store after the item, the item's
terminal status, and the emitted events. `leverandoerer` is the bulk list
fetched once at run start (line 64). A thrown `WorkItemError` from the
update call is caught by the item-level handler, logged, and turned into
`item.fail(str(e))`. -/
def process_item (store : List Leverandoer) (leverandoerer : List Leverandoer)
    (mapping : List MappingEntry) (item : WItem) (b : Behavior) :
    List Leverandoer × ItemStatus × List Event :=
  match kontroller_kommunekode item item.data mapping b.reportOk with
  | (Option.none, ev) => (store, ItemStatus.done, ev)
  | (Option.some kommunekode, ev) =>
    match kontroller_leverandoer store item.data leverandoerer with
    | Option.none => (store, ItemStatus.done, ev)
    | Option.some lev =>
      if pyEq lev.address.administrativeAreaCode (PyVal.str kommunekode) then
        (store, ItemStatus.done, ev)
      else
        let opdateret : Leverandoer :=
          { lev with address :=
              { lev.address with
                  administrativeAreaCode := PyVal.str kommunekode } }
        match b.updateThrows with
        | Option.some msg =>
          (store, ItemStatus.failed msg,
            ev ++ [Event.update opdateret,
                   Event.logErr ("Error processing item. Error: " ++ msg)])
        | Option.none =>
          (opdater_leverandoer store opdateret, ItemStatus.done,
            ev ++ [Event.update opdateret, Event.track proces_navn])

/-- The drain loop of `process_workqueue`: process the items in order,
threading the platform store, and collect per-item `(reference, status)`
outcomes and the concatenated event trace. -/
def procLoop (leverandoerer : List Leverandoer) (mapping : List MappingEntry) :
    List Leverandoer → List (WItem × Behavior) →
    List Leverandoer × List (String × ItemStatus) × List Event
  | store, [] => (store, [], [])
  | store, (item, b) :: rest =>
    let r := process_item store leverandoerer mapping item b
    let rs := procLoop leverandoerer mapping r.1 rest
    (rs.1, (item.reference, r.2.1) :: rs.2.1, r.2.2 ++ rs.2.2)

/-- `process_workqueue` from `src/main.py`: fetch the bulk supplier list
once from the current platform store, then drain the queue. -/
def process_workqueue (store : List Leverandoer) (mapping : List MappingEntry)
    (items : List (WItem × Behavior)) :
    List Leverandoer × List (String × ItemStatus) × List Event :=
  procLoop store mapping store items

/-- The payload `koe_data` built on lines 43-47 for a resolved supplier. -/
def payload (lev : Leverandoer) : QueueData :=
  { leverandoer_id := lev.id
    kommunekode := lev.address.administrativeAreaCode
    postnummer := lev.address.postalCode }

/-- The queue label built on line 50: the reference's id and name. -/
def label (lev : Leverandoer) : String :=
  pyStr lev.id ++ " - " ++ lev.name

/-- Outcome of `populate_queue`: normal completion with the enqueued items,
or an abort. On a resolution failure the handler formats the local variable
`koe_data` into a raised `WorkItemError` — `workItemError kd queue` carries
the value `koe_data` held at that moment; when `koe_data` was never
assigned the f-string itself raises an unbound-local error instead,
modelled by `unboundLocalError`. Each outcome carries the items already
enqueued before the abort. -/
inductive PopResult where
  | ok (queue : List (QueueData × String)) : PopResult
  | workItemError (koe_data : QueueData) (queue : List (QueueData × String)) :
      PopResult
  | unboundLocalError (queue : List (QueueData × String)) : PopResult
deriving DecidableEq, Repr

/-- The items enqueued by a population run (also the partial queue of an
aborted run). -/
def queueOf : PopResult → List (QueueData × String)
  | PopResult.ok q => q
  | PopResult.workItemError _ q => q
  | PopResult.unboundLocalError q => q

/-- Whether population aborted by raising instead of completing. -/
def raised : PopResult → Bool
  | PopResult.ok _ => false
  | _ => true

/-- The `for leverandør in aktive_leverandører` loop of `populate_queue`.
`irr` is the configured exclusion list (`regler.get("Irrelevante
leverandører", [])`), `resolveFails lev` says whether
`nexus.hent_fra_reference(leverandør)` (or the payload construction)
throws for that supplier, `koe` is the current binding of the function
local `koe_data` (`Option.none` while unassigned), `acc` the items
enqueued so far. -/
def popLoop (irr : List String) (resolveFails : Leverandoer → Bool) :
    List Leverandoer → Option QueueData → List (QueueData × String) →
    PopResult
  | [], _, acc => PopResult.ok acc
  | lev :: rest, koe, acc =>
    if irr.contains lev.name then
      popLoop irr resolveFails rest koe acc
    else if resolveFails lev then
      match koe with
      | Option.none => PopResult.unboundLocalError acc
      | Option.some kd => PopResult.workItemError kd acc
    else
      popLoop irr resolveFails rest (Option.some (payload lev))
        (acc ++ [(payload lev, label lev)])

/-- `populate_queue` from `src/main.py`: keep the suppliers whose `active`
is exactly `True` (line 34), then run the population loop with `koe_data`
unbound and an empty queue. -/
def populate_queue (leverandoerer : List Leverandoer) (irr : List String)
    (resolveFails : Leverandoer → Bool) : PopResult :=
  popLoop irr resolveFails
    (leverandoerer.filter (fun l => l.active = Option.some true))
    Option.none []

/-- The binding of `koe_data` after the loop has run over a list of
suppliers that were all resolved successfully: the last one's payload, or
the inherited binding when the list is empty. -/
def lastPay : List Leverandoer → Option QueueData → Option QueueData
  | [], koe => koe
  | lev :: rest, _ => lastPay rest (Option.some (payload lev))

/-! ## Helper lemmas -/

theorem pyEq_refl (a : PyVal) : pyEq a a = true := by
  cases a <;> simp [pyEq]

theorem pyEq_symm {a b : PyVal} (h : pyEq a b = true) : pyEq b a = true := by
  cases a <;> cases b <;> simp_all [pyEq]

theorem pyEq_trans {a b c : PyVal} (h1 : pyEq a b = true)
    (h2 : pyEq b c = true) : pyEq a c = true := by
  cases a <;> cases b <;> cases c <;> simp_all [pyEq]

theorem find?_congr {α : Type} {p q : α → Bool} (l : List α)
    (h : ∀ x ∈ l, p x = q x) : l.find? p = l.find? q := by
  induction l with
  | nil => rfl
  | cons a l ih =>
    have ha : p a = q a := h a (by simp)
    cases hq : q a with
    | true =>
      rw [List.find?_cons_of_pos l (by simp [ha, hq]),
          List.find?_cons_of_pos l (by simp [hq])]
    | false =>
      rw [List.find?_cons_of_neg l (by simp [ha, hq]),
          List.find?_cons_of_neg l (by simp [hq])]
      exact ih (fun x hx => h x (by simp [hx]))

/-- Searching again by the id of an element found by an id search returns
that same element: the two predicates agree on every element because `pyEq`
is an equivalence. -/
theorem find?_id_self {store : List Leverandoer} {target : PyVal}
    {rel : Leverandoer}
    (h : store.find? (fun r => pyEq r.id target) = Option.some rel) :
    store.find? (fun r => pyEq r.id rel.id) = Option.some rel := by
  have hrel : pyEq rel.id target = true := by
    simpa using List.find?_some (p := fun r : Leverandoer => pyEq r.id target) h
  rw [find?_congr store (q := fun r => pyEq r.id target) ?_]
  · exact h
  · intro x _
    rw [Bool.eq_iff_iff]
    constructor
    · intro hx
      exact pyEq_trans hx hrel
    · intro hx
      exact pyEq_trans hx (pyEq_symm hrel)

theorem hent_of_found {store : List Leverandoer} {target : PyVal}
    {rel : Leverandoer}
    (h : store.find? (fun r => pyEq r.id target) = Option.some rel) :
    hent_fra_reference store rel = rel := by
  unfold hent_fra_reference
  rw [find?_id_self h]
  rfl

/-- Evaluation of `kontroller_kommunekode` on a missing postal code. -/
theorem kontroller_missing {item : WItem} {data : QueueData}
    {mapping : List MappingEntry} {rOk : Bool}
    (h : data.postnummer = PyVal.none) :
    kontroller_kommunekode item data mapping rOk =
      (Option.none,
        Event.report "Manglende postnummer"
          [("Leverandoer", PyVal.str item.reference)] ::
        (if rOk then []
         else [Event.logErr
           ("Fejl ved rapportering for leverandoer " ++ item.reference ++
            " uden postnummer")])) := by
  simp [kontroller_kommunekode, h]

/-- Evaluation of `kontroller_kommunekode` on an unmapped postal code. -/
theorem kontroller_unmapped {item : WItem} {data : QueueData}
    {mapping : List MappingEntry} {rOk : Bool}
    (h1 : data.postnummer ≠ PyVal.none)
    (h2 : mapping.find? (fun e => codeMatches e data.postnummer) =
      Option.none) :
    kontroller_kommunekode item data mapping rOk =
      (Option.none,
        Event.report "Postnummer uden kommunekode"
          [("Leverandoer", PyVal.str item.reference),
           ("Postnummer", data.postnummer)] ::
        (if rOk then []
         else [Event.logErr
           ("Fejl ved rapportering for leverandoer " ++ item.reference ++
            " med postnummer " ++ pyStr data.postnummer)])) := by
  simp [kontroller_kommunekode, h1, h2]

/-- Evaluation of `kontroller_kommunekode` on a mapped postal code. -/
theorem kontroller_mapped {item : WItem} {data : QueueData}
    {mapping : List MappingEntry} {rOk : Bool} {entry : MappingEntry}
    (h1 : data.postnummer ≠ PyVal.none)
    (h2 : mapping.find? (fun e => codeMatches e data.postnummer) =
      Option.some entry) :
    kontroller_kommunekode item data mapping rOk =
      (Option.some (pyStr entry.Kommunenr), []) := by
  simp [kontroller_kommunekode, h1, h2]

/-- The events emitted by `kontroller_kommunekode` are reports and error
logs only: never an update call or a tracking signal. -/
theorem kontroller_events {item : WItem} {data : QueueData}
    {mapping : List MappingEntry} {rOk : Bool} :
    ∀ e ∈ (kontroller_kommunekode item data mapping rOk).2,
      e.isUpdate = false ∧ e.isTrack = false := by
  unfold kontroller_kommunekode
  by_cases h : data.postnummer = PyVal.none
  · cases rOk <;> simp [h, Event.isUpdate, Event.isTrack]
  · cases hf : mapping.find? (fun e => codeMatches e data.postnummer) <;>
      cases rOk <;> simp [h, hf, Event.isUpdate, Event.isTrack]

/-- The record written back on lines 87-88: the live record resolved from
the reference `rel`, with `administrativeAreaCode` replaced by the
looked-up code `str(entry["Kommunenr"])`. -/
def opdateretLeverandoer (store : List Leverandoer) (rel : Leverandoer)
    (entry : MappingEntry) : Leverandoer :=
  let lev := hent_fra_reference store rel
  { lev with address :=
      { lev.address with
          administrativeAreaCode := PyVal.str (pyStr entry.Kommunenr) } }

/-- Evaluation of `process_item` on a missing postal code: one report, no
update, no tracking, store untouched, item done. -/
theorem processItem_missing {store leverandoerer : List Leverandoer}
    {mapping : List MappingEntry} {item : WItem} {b : Behavior}
    (hpost : item.data.postnummer = PyVal.none) :
    process_item store leverandoerer mapping item b =
      (store, ItemStatus.done,
        Event.report "Manglende postnummer"
          [("Leverandoer", PyVal.str item.reference)] ::
        (if b.reportOk then []
         else [Event.logErr
           ("Fejl ved rapportering for leverandoer " ++ item.reference ++
            " uden postnummer")])) := by
  unfold process_item
  rw [kontroller_missing hpost]

/-- Evaluation of `process_item` on a postal code absent from the mapping:
one report, no update, no tracking, store untouched, item done. -/
theorem processItem_unmapped {store leverandoerer : List Leverandoer}
    {mapping : List MappingEntry} {item : WItem} {b : Behavior}
    (hpost : item.data.postnummer ≠ PyVal.none)
    (hfind : mapping.find? (fun e => codeMatches e item.data.postnummer) =
      Option.none) :
    process_item store leverandoerer mapping item b =
      (store, ItemStatus.done,
        Event.report "Postnummer uden kommunekode"
          [("Leverandoer", PyVal.str item.reference),
           ("Postnummer", item.data.postnummer)] ::
        (if b.reportOk then []
         else [Event.logErr
           ("Fejl ved rapportering for leverandoer " ++ item.reference ++
            " med postnummer " ++ pyStr item.data.postnummer)])) := by
  unfold process_item
  rw [kontroller_unmapped hpost hfind]

/-- Evaluation of `process_item` when the looked-up code already equals the
live record's code: nothing is written, nothing is tracked, item done. -/
theorem processItem_equal {store leverandoerer : List Leverandoer}
    {mapping : List MappingEntry} {item : WItem} {b : Behavior}
    {entry : MappingEntry} {rel : Leverandoer}
    (hpost : item.data.postnummer ≠ PyVal.none)
    (hentry : mapping.find? (fun e => codeMatches e item.data.postnummer) =
      Option.some entry)
    (hrel : leverandoerer.find?
        (fun r => pyEq r.id item.data.leverandoer_id) = Option.some rel)
    (heq : pyEq (hent_fra_reference store rel).address.administrativeAreaCode
        (PyVal.str (pyStr entry.Kommunenr)) = true) :
    process_item store leverandoerer mapping item b =
      (store, ItemStatus.done, []) := by
  unfold process_item
  rw [kontroller_mapped hpost hentry]
  simp [kontroller_leverandoer, hrel, heq]

/-- Evaluation of `process_item` when the codes differ and the update call
succeeds: the updated record is persisted, then the task is tracked. -/
theorem processItem_update {store leverandoerer : List Leverandoer}
    {mapping : List MappingEntry} {item : WItem} {b : Behavior}
    {entry : MappingEntry} {rel : Leverandoer}
    (hb : b.updateThrows = Option.none)
    (hpost : item.data.postnummer ≠ PyVal.none)
    (hentry : mapping.find? (fun e => codeMatches e item.data.postnummer) =
      Option.some entry)
    (hrel : leverandoerer.find?
        (fun r => pyEq r.id item.data.leverandoer_id) = Option.some rel)
    (hdiff : pyEq (hent_fra_reference store rel).address.administrativeAreaCode
        (PyVal.str (pyStr entry.Kommunenr)) = false) :
    process_item store leverandoerer mapping item b =
      (opdater_leverandoer store (opdateretLeverandoer store rel entry),
       ItemStatus.done,
       [Event.update (opdateretLeverandoer store rel entry),
        Event.track proces_navn]) := by
  unfold process_item
  rw [kontroller_mapped hpost hentry]
  simp [kontroller_leverandoer, hrel, hdiff, hb, opdateretLeverandoer]

/-- Evaluation of `process_item` when the codes differ and the update call
throws a `WorkItemError`: the error is caught, logged, and the item failed
with the error message; no tracking signal fires and the store keeps its
previous value. -/
theorem processItem_throw {store leverandoerer : List Leverandoer}
    {mapping : List MappingEntry} {item : WItem} {b : Behavior}
    {entry : MappingEntry} {rel : Leverandoer} {msg : String}
    (hb : b.updateThrows = Option.some msg)
    (hpost : item.data.postnummer ≠ PyVal.none)
    (hentry : mapping.find? (fun e => codeMatches e item.data.postnummer) =
      Option.some entry)
    (hrel : leverandoerer.find?
        (fun r => pyEq r.id item.data.leverandoer_id) = Option.some rel)
    (hdiff : pyEq (hent_fra_reference store rel).address.administrativeAreaCode
        (PyVal.str (pyStr entry.Kommunenr)) = false) :
    process_item store leverandoerer mapping item b =
      (store, ItemStatus.failed msg,
       [Event.update (opdateretLeverandoer store rel entry),
        Event.logErr ("Error processing item. Error: " ++ msg)]) := by
  unfold process_item
  rw [kontroller_mapped hpost hentry]
  simp [kontroller_leverandoer, hrel, hdiff, hb, opdateretLeverandoer]

/-! ## Concrete fixtures for witnesses and counterexamples -/

/-- The mapping of the spec's scenario: postal code 5000 maps to
municipality code 461. -/
def exMapping : List MappingEntry :=
  [{ Postnr := PyVal.str "5000", Kommunenr := PyVal.str "461" }]

/-- A mapping entry whose fields are JSON numbers, as §6 allows. -/
def c4Entry : MappingEntry :=
  { Postnr := PyVal.int 5000, Kommunenr := PyVal.int 461 }

/-- A queue item whose snapshot postal code is the JSON number 5000. -/
def c4Item : WItem :=
  { reference := "7 - Leverandoer A"
    data := { leverandoer_id := PyVal.int 7
              kommunekode := PyVal.str "999"
              postnummer := PyVal.int 5000 } }

/-- A queue item without a postal code (`postnummer` is `None`). -/
def w5Item : WItem :=
  { reference := "7 - Leverandoer A"
    data := { leverandoer_id := PyVal.int 7
              kommunekode := PyVal.str "999"
              postnummer := PyVal.none } }

/-- A queue item whose postal code 9999 is absent from `exMapping`. -/
def w6Item : WItem :=
  { reference := "7 - Leverandoer A"
    data := { leverandoer_id := PyVal.int 7
              kommunekode := PyVal.str "999"
              postnummer := PyVal.str "9999" } }

/-- A queue item whose postal code is the empty string. -/
def w10Item : WItem :=
  { reference := "7 - Leverandoer A"
    data := { leverandoer_id := PyVal.int 7
              kommunekode := PyVal.str "999"
              postnummer := PyVal.str "" } }

/-! ## Claims -/

/-- C4, counterexample: with a mapping entry whose `Postnr` is the JSON
number 5000 and an item whose `postnummer` is the JSON number 5000, the
spec's predicate (both sides normalized to string) matches, yet the lookup
of `kontroller_kommunekode` finds nothing — line 120 compares
`str(list_item["Postnr"])` against the raw `data["postnummer"]`, and in
Python a string never equals a number. -/
theorem claim_C4_cex :
    specMatches c4Entry c4Item.data.postnummer = true ∧
    (kontroller_kommunekode c4Item c4Item.data [c4Entry] true).1 =
      Option.none := by
  decide

/-- C4 (amended): the lookup's match test holds exactly when the item's
`postnummer` is the string `str(entry["Postnr"])` — only the entry's side
is normalized to string; an item whose `postnummer` is not a string never
matches any entry. -/
theorem claim_C4 (e : MappingEntry) (p : PyVal) :
    codeMatches e p = true ↔ p = PyVal.str (pyStr e.Postnr) := by
  cases p with
  | none => simp [codeMatches, pyEq]
  | str s =>
    simp only [codeMatches, pyEq, beq_iff_eq, PyVal.str.injEq]
    exact ⟨fun h => h.symm, fun h => h.symm⟩
  | int n => simp [codeMatches, pyEq]

/-- C5: an item whose `postnummer` is `None` yields exactly one report with
group "Manglende postnummer" carrying the item's reference label, no
update call, no tracking signal, an untouched store, and the item is done,
not failed. -/
theorem claim_C5 (store leverandoerer : List Leverandoer)
    (mapping : List MappingEntry) (item : WItem) (b : Behavior)
    (hpost : item.data.postnummer = PyVal.none) :
    process_item store leverandoerer mapping item b =
      (store, ItemStatus.done,
        Event.report "Manglende postnummer"
          [("Leverandoer", PyVal.str item.reference)] ::
        (if b.reportOk then []
         else [Event.logErr
           ("Fejl ved rapportering for leverandoer " ++ item.reference ++
            " uden postnummer")])) :=
  processItem_missing hpost

/-- C5, witness at a concrete item without a postal code. -/
theorem claim_C5_witness :
    process_item [] [] [] w5Item
        { reportOk := true, updateThrows := Option.none } =
      ([], ItemStatus.done,
        [Event.report "Manglende postnummer"
          [("Leverandoer", PyVal.str "7 - Leverandoer A")]]) := by
  simpa [w5Item] using
    claim_C5 [] [] [] w5Item
      { reportOk := true, updateThrows := Option.none } rfl

/-- C6: an item whose non-`None` `postnummer` matches no mapping entry
yields exactly one report with group "Postnummer uden kommunekode"
carrying the reference label and the offending postal code, no update
call, no tracking signal, an untouched store, and the item is done, not
failed; when the report call itself throws, the failure is caught and
logged and the item is still done. -/
theorem claim_C6 (store leverandoerer : List Leverandoer)
    (mapping : List MappingEntry) (item : WItem) (b : Behavior)
    (hpost : item.data.postnummer ≠ PyVal.none)
    (hfind : mapping.find? (fun e => codeMatches e item.data.postnummer) =
      Option.none) :
    process_item store leverandoerer mapping item b =
      (store, ItemStatus.done,
        Event.report "Postnummer uden kommunekode"
          [("Leverandoer", PyVal.str item.reference),
           ("Postnummer", item.data.postnummer)] ::
        (if b.reportOk then []
         else [Event.logErr
           ("Fejl ved rapportering for leverandoer " ++ item.reference ++
            " med postnummer " ++ pyStr item.data.postnummer)])) :=
  processItem_unmapped hpost hfind

/-- C6, witness at a concrete unmapped postal code, with a report call
that itself throws: the failure is logged and the item is still done. -/
theorem claim_C6_witness :
    process_item [] [] exMapping w6Item
        { reportOk := false, updateThrows := Option.none } =
      ([], ItemStatus.done,
        [Event.report "Postnummer uden kommunekode"
          [("Leverandoer", PyVal.str "7 - Leverandoer A"),
           ("Postnummer", PyVal.str "9999")],
         Event.logErr
           ("Fejl ved rapportering for leverandoer 7 - Leverandoer A" ++
            " med postnummer 9999")]) := by
  simpa [w6Item, exMapping] using
    claim_C6 [] [] exMapping w6Item
      { reportOk := false, updateThrows := Option.none }
      (by decide) (by decide)

/-- C10: an item whose `postnummer` is the empty string (present,
non-`None`, but empty) does not take the missing-postal-code branch: the
`is None` test on line 99 fails, the lookup runs, and — the mapping
holding no entry whose `Postnr` prints as the empty string — the report
goes out under group "Postnummer uden kommunekode", not "Manglende
postnummer". -/
theorem claim_C10 (store leverandoerer : List Leverandoer)
    (mapping : List MappingEntry) (item : WItem) (b : Behavior)
    (hpost : item.data.postnummer = PyVal.str "")
    (hmap : ∀ e ∈ mapping, pyStr e.Postnr ≠ "") :
    process_item store leverandoerer mapping item b =
      (store, ItemStatus.done,
        Event.report "Postnummer uden kommunekode"
          [("Leverandoer", PyVal.str item.reference),
           ("Postnummer", item.data.postnummer)] ::
        (if b.reportOk then []
         else [Event.logErr
           ("Fejl ved rapportering for leverandoer " ++ item.reference ++
            " med postnummer " ++ pyStr item.data.postnummer)])) := by
  have hne : item.data.postnummer ≠ PyVal.none := by
    rw [hpost]
    intro h
    cases h
  have hfind : mapping.find? (fun e => codeMatches e item.data.postnummer) =
      Option.none := by
    rw [List.find?_eq_none]
    intro e he
    rw [hpost]
    simp only [codeMatches, pyEq, Bool.not_eq_true, beq_eq_false_iff_ne,
      ne_eq]
    exact hmap e he
  exact processItem_unmapped hne hfind

/-- C10, witness at a concrete empty-string postal code against the
scenario mapping. -/
theorem claim_C10_witness :
    process_item [] [] exMapping w10Item
        { reportOk := true, updateThrows := Option.none } =
      ([], ItemStatus.done,
        [Event.report "Postnummer uden kommunekode"
          [("Leverandoer", PyVal.str "7 - Leverandoer A"),
           ("Postnummer", PyVal.str "")]]) := by
  simpa [w10Item, exMapping] using
    claim_C10 [] [] exMapping w10Item
      { reportOk := true, updateThrows := Option.none }
      rfl (by decide)

/-- The spec scenario's live supplier: active, code 999, postal code 5000. -/
def exLev : Leverandoer :=
  { id := PyVal.int 7, name := "Leverandoer A", active := Option.some true
    address := { administrativeAreaCode := PyVal.str "999"
                 postalCode := PyVal.str "5000" } }

/-- The queue item populated from `exLev`. -/
def exItem : WItem :=
  { reference := "7 - Leverandoer A", data := payload exLev }

/-- `exLev` after the municipality code has been corrected to 461. -/
def exOpdateret : Leverandoer :=
  { exLev with address :=
      { exLev.address with administrativeAreaCode := PyVal.str "461" } }

/-- C1: for an item whose postal code is present (`hpost`) and mapped to
`entry` (`hentry`), whose supplier reference is found in the bulk list
(`hrel`), and whose live record's `administrativeAreaCode` differs from
the looked-up code (`hdiff`), processing performs exactly one update call
— persisting the live record with `administrativeAreaCode` replaced by the
looked-up value — and exactly one tracking signal, the update strictly
before the tracking signal, and the item ends done. -/
theorem claim_C1 (store leverandoerer : List Leverandoer)
    (mapping : List MappingEntry) (item : WItem) (b : Behavior)
    (entry : MappingEntry) (rel : Leverandoer)
    (hb : b.updateThrows = Option.none)
    (hpost : item.data.postnummer ≠ PyVal.none)
    (hentry : mapping.find? (fun e => codeMatches e item.data.postnummer) =
      Option.some entry)
    (hrel : leverandoerer.find?
        (fun r => pyEq r.id item.data.leverandoer_id) = Option.some rel)
    (hdiff : pyEq (hent_fra_reference store rel).address.administrativeAreaCode
        (PyVal.str (pyStr entry.Kommunenr)) = false) :
    process_item store leverandoerer mapping item b =
      (opdater_leverandoer store (opdateretLeverandoer store rel entry),
       ItemStatus.done,
       [Event.update (opdateretLeverandoer store rel entry),
        Event.track proces_navn]) :=
  processItem_update hb hpost hentry hrel hdiff

/-- C1, witness at the spec's scenario: mapping 5000 to 461, live code 999;
the update with code 461 is issued, then the tracking signal. -/
theorem claim_C1_witness :
    process_item [exLev] [exLev] exMapping exItem
        { reportOk := true, updateThrows := Option.none } =
      ([exOpdateret], ItemStatus.done,
       [Event.update exOpdateret, Event.track proces_navn]) :=
  (claim_C1 [exLev] [exLev] exMapping exItem
      { reportOk := true, updateThrows := Option.none }
      { Postnr := PyVal.str "5000", Kommunenr := PyVal.str "461" } exLev
      rfl (by decide) (by decide) (by decide) (by decide)).trans (by decide)

/-- C3: when an item that reaches the update step has its update call throw
a `WorkItemError` with message `msg`, the item-level handler marks the item
failed with exactly that message, the store keeps its previous value, and
the remaining queue items are processed exactly as a run over the rest of
the queue alone — processing continues regardless. -/
theorem claim_C3 (store leverandoerer : List Leverandoer)
    (mapping : List MappingEntry) (item : WItem) (b : Behavior)
    (rest : List (WItem × Behavior)) (msg : String)
    (entry : MappingEntry) (rel : Leverandoer)
    (hthrow : b.updateThrows = Option.some msg)
    (hpost : item.data.postnummer ≠ PyVal.none)
    (hentry : mapping.find? (fun e => codeMatches e item.data.postnummer) =
      Option.some entry)
    (hrel : leverandoerer.find?
        (fun r => pyEq r.id item.data.leverandoer_id) = Option.some rel)
    (hdiff : pyEq (hent_fra_reference store rel).address.administrativeAreaCode
        (PyVal.str (pyStr entry.Kommunenr)) = false) :
    procLoop leverandoerer mapping store ((item, b) :: rest) =
      ((procLoop leverandoerer mapping store rest).1,
       (item.reference, ItemStatus.failed msg) ::
         (procLoop leverandoerer mapping store rest).2.1,
       [Event.update (opdateretLeverandoer store rel entry),
        Event.logErr ("Error processing item. Error: " ++ msg)] ++
         (procLoop leverandoerer mapping store rest).2.2) := by
  have h := processItem_throw hthrow hpost hentry hrel hdiff
  simp [procLoop, h]

/-- C3, witness: the first item's update throws "boom"; it is failed with
"boom" and the following item (missing postal code) is still processed. -/
theorem claim_C3_witness :
    procLoop [exLev] exMapping [exLev]
        [(exItem, { reportOk := true, updateThrows := Option.some "boom" }),
         (w5Item, { reportOk := true, updateThrows := Option.none })] =
      ([exLev],
       [("7 - Leverandoer A", ItemStatus.failed "boom"),
        ("7 - Leverandoer A", ItemStatus.done)],
       [Event.update exOpdateret,
        Event.logErr "Error processing item. Error: boom",
        Event.report "Manglende postnummer"
          [("Leverandoer", PyVal.str "7 - Leverandoer A")]]) :=
  (claim_C3 [exLev] [exLev] exMapping exItem
      { reportOk := true, updateThrows := Option.some "boom" }
      [(w5Item, { reportOk := true, updateThrows := Option.none })] "boom"
      { Postnr := PyVal.str "5000", Kommunenr := PyVal.str "461" } exLev
      rfl (by decide) (by decide) (by decide) (by decide)).trans (by decide)

/-! ## Population claims -/

/-- Every item in the queue produced by the population loop was either
already in the accumulator or comes from a non-excluded supplier of the
remaining list. -/
theorem popLoop_mem {irr : List String} {rf : Leverandoer → Bool} :
    ∀ (l : List Leverandoer) (koe : Option QueueData)
      (acc : List (QueueData × String)) (x : QueueData × String),
      x ∈ queueOf (popLoop irr rf l koe acc) →
      x ∈ acc ∨ ∃ lev, lev ∈ l ∧ lev.name ∉ irr ∧
        x = (payload lev, label lev)
  | [], _, acc, x, hx => Or.inl (by simpa [popLoop, queueOf] using hx)
  | lev :: rest, koe, acc, x, hx => by
    by_cases hc : lev.name ∈ irr
    · rcases popLoop_mem rest koe acc x
          (by simpa [popLoop, List.contains, hc] using hx) with
        h | ⟨l2, hl2, hn, hx2⟩
      · exact Or.inl h
      · exact Or.inr ⟨l2, List.mem_cons_of_mem _ hl2, hn, hx2⟩
    · have hcb : irr.contains lev.name = false := by
        simp [List.contains, hc]
      by_cases hrf : rf lev
      · cases koe <;> simp [popLoop, hc, hcb, hrf, queueOf] at hx <;>
          exact Or.inl hx
      · rcases popLoop_mem rest (Option.some (payload lev))
            (acc ++ [(payload lev, label lev)]) x
            (by simpa [popLoop, hc, hcb, hrf] using hx) with
          h | ⟨l2, hl2, hn, hx2⟩
        · rcases List.mem_append.1 h with h | h
          · exact Or.inl h
          · exact Or.inr ⟨lev, List.mem_cons_self _ _, hc, by simpa using h⟩
        · exact Or.inr ⟨l2, List.mem_cons_of_mem _ hl2, hn, hx2⟩

/-- C7: population enqueues only for eligible suppliers — every item of
the produced queue (also of the partial queue of an aborted run) is the
payload and label of some supplier of the input list whose `active` field
is exactly `True` and whose name is not on the exclusion list; hence an
inactive or excluded supplier never contributes an item. -/
theorem claim_C7 (leverandoerer : List Leverandoer) (irr : List String)
    (rf : Leverandoer → Bool) (x : QueueData × String)
    (hx : x ∈ queueOf (populate_queue leverandoerer irr rf)) :
    ∃ lev, lev ∈ leverandoerer ∧ lev.active = Option.some true ∧
      lev.name ∉ irr ∧ x = (payload lev, label lev) := by
  rcases popLoop_mem _ _ _ x hx with h | ⟨lev, hl, hn, hx2⟩
  · simp at h
  · rcases List.mem_filter.1 hl with ⟨hm, hdec⟩
    exact ⟨lev, hm, of_decide_eq_true hdec, hn, hx2⟩

/-- C7, witness: the single item enqueued for `exLev` indeed originates
from an active, non-excluded supplier. -/
theorem claim_C7_witness :
    ∃ lev, lev ∈ [exLev] ∧ lev.active = Option.some true ∧
      lev.name ∉ ([] : List String) ∧
      (payload exLev, label exLev) = (payload lev, label lev) :=
  claim_C7 [exLev] [] (fun _ => false) (payload exLev, label exLev)
    (by decide)

/-- If some non-excluded supplier of the remaining list fails to resolve,
the population loop raises instead of completing. -/
theorem popLoop_raised {irr : List String} {rf : Leverandoer → Bool} :
    ∀ (l : List Leverandoer) (koe : Option QueueData)
      (acc : List (QueueData × String)),
      (∃ lev, lev ∈ l ∧ lev.name ∉ irr ∧ rf lev = true) →
      raised (popLoop irr rf l koe acc) = true
  | [], _, _, h => by simp at h
  | lev :: rest, koe, acc, ⟨w, hw, hn, hrfw⟩ => by
    by_cases hc : lev.name ∈ irr
    · have hwr : w ∈ rest := by
        rcases List.mem_cons.1 hw with rfl | h
        · exact absurd hc hn
        · exact h
      simpa [popLoop, List.contains, hc] using
        popLoop_raised rest koe acc ⟨w, hwr, hn, hrfw⟩
    · have hcb : irr.contains lev.name = false := by
        simp [List.contains, hc]
      by_cases hrf : rf lev
      · cases koe <;> simp [popLoop, hc, hcb, hrf, raised]
      · have hwr : w ∈ rest := by
          rcases List.mem_cons.1 hw with rfl | h
          · rw [hrfw] at hrf
            cases hrf rfl
          · exact h
        simpa [popLoop, hc, hcb, hrf] using
          popLoop_raised rest (Option.some (payload lev))
            (acc ++ [(payload lev, label lev)]) ⟨w, hwr, hn, hrfw⟩

/-- C8, counterexample: a single active supplier whose resolution throws.
The claim says the error is surfaced as a raised `WorkItemError`; instead,
`koe_data` being unbound in the handler's f-string, the run aborts with an
unbound-local error — a different exception, and no payload is named. -/
theorem claim_C8_cex :
    populate_queue [exLev] [] (fun _ => true) =
      PopResult.unboundLocalError [] := by
  decide

/-- C8 (amended): when resolving some eligible (active, non-excluded)
supplier throws, population aborts by raising — a `WorkItemError` naming a
`koe_data` payload when an earlier eligible iteration bound one, otherwise
an unbound-local error from the handler's own f-string — rather than
catching and continuing, so the remaining suppliers of that batch are not
populated. -/
theorem claim_C8 (leverandoerer : List Leverandoer) (irr : List String)
    (rf : Leverandoer → Bool)
    (h : ∃ lev, lev ∈ leverandoerer ∧ lev.active = Option.some true ∧
      lev.name ∉ irr ∧ rf lev = true) :
    raised (populate_queue leverandoerer irr rf) = true := by
  rcases h with ⟨lev, hm, ha, hn, hr⟩
  exact popLoop_raised _ _ _
    ⟨lev, List.mem_filter.2 ⟨hm, by simp [ha]⟩, hn, hr⟩

/-- C8, witness: with a single active supplier whose resolution throws,
population raises. -/
theorem claim_C8_witness :
    raised (populate_queue [exLev] [] (fun _ => true)) = true :=
  claim_C8 [exLev] [] (fun _ => true)
    ⟨exLev, by decide, by decide, by decide, by decide⟩

/-- The suppliers of `pre` that the population loop actually resolves: the
ones whose `active` is exactly `True` and whose name is not excluded. -/
def eligiblePre (irr : List String) (pre : List Leverandoer) :
    List Leverandoer :=
  (pre.filter (fun l => l.active = Option.some true)).filter
    (fun x => !(irr.contains x.name))

/-- Running the population loop across a block of suppliers none of whose
eligible members fails: the eligible ones are enqueued in order and
`koe_data` ends bound to the last eligible payload (or keeps its inherited
binding when none is eligible). -/
theorem popLoop_pre {irr : List String} {rf : Leverandoer → Bool} :
    ∀ (l tail : List Leverandoer) (koe : Option QueueData)
      (acc : List (QueueData × String)),
      (∀ x ∈ l, x.name ∉ irr → rf x = false) →
      popLoop irr rf (l ++ tail) koe acc =
        popLoop irr rf tail
          (lastPay (l.filter (fun x => !(irr.contains x.name))) koe)
          (acc ++ (l.filter (fun x => !(irr.contains x.name))).map
            (fun x => (payload x, label x)))
  | [], tail, koe, acc, _ => by simp [lastPay]
  | x :: l, tail, koe, acc, h => by
    by_cases hc : x.name ∈ irr
    · have hcb : irr.contains x.name = true := by
        simp [List.contains, hc]
      have ih := popLoop_pre l tail koe acc
        (fun y hy => h y (List.mem_cons_of_mem _ hy))
      simpa [popLoop, List.filter_cons, hc, hcb] using ih
    · have hcb : irr.contains x.name = false := by
        simp [List.contains, hc]
      have hrf : rf x = false := h x (List.mem_cons_self _ _) hc
      have ih := popLoop_pre l tail (Option.some (payload x))
        (acc ++ [(payload x, label x)])
        (fun y hy => h y (List.mem_cons_of_mem _ hy))
      simp only [List.cons_append, popLoop, hc, hcb, hrf, if_false,
        ite_false, ite_true, Bool.false_eq_true, List.append_eq]
      rw [ih]
      simp [List.filter_cons, hc, hcb, lastPay, List.append_assoc]

/-- The `koe_data` binding left by a block of successful iterations is the
payload of the block's last supplier, or the inherited binding when the
block is empty. -/
theorem lastPay_getLast? :
    ∀ (l : List Leverandoer) (koe : Option QueueData),
      lastPay l koe =
        match l.getLast? with
        | Option.none => koe
        | Option.some x => Option.some (payload x)
  | [], _ => rfl
  | x :: l, koe => by
    have ih := lastPay_getLast? l (Option.some (payload x))
    rw [show lastPay (x :: l) koe = lastPay l (Option.some (payload x))
      from rfl, ih]
    cases l with
    | nil => simp
    | cons y l2 =>
      rw [List.getLast?_cons_cons]
      cases hg : (y :: l2).getLast? with
      | none =>
        rw [List.getLast?_eq_none_iff] at hg
        cases hg
      | some z => simp

/-- C9: in `populate_queue`'s exception handler the payload formatted into
the raised message is the function-local `koe_data`. When a supplier `lev`
(active, non-excluded, failing to resolve) is preceded by suppliers `pre`
whose eligible members all resolve, the run aborts; `koe_data` at that
moment is `lastPay (eligiblePre irr pre) Option.none`: unbound — so the
handler itself raises an unbound-local error and no `WorkItemError` —
when `pre` has no eligible member, and otherwise the payload of the LAST
eligible supplier of `pre`, i.e. the previous iteration's payload, not
`lev`'s own. -/
theorem claim_C9 (pre post : List Leverandoer) (lev : Leverandoer)
    (irr : List String) (rf : Leverandoer → Bool)
    (hact : lev.active = Option.some true)
    (hexc : lev.name ∉ irr)
    (hrf : rf lev = true)
    (hpre : ∀ l ∈ pre, l.name ∉ irr → rf l = false) :
    populate_queue (pre ++ lev :: post) irr rf =
      (match lastPay (eligiblePre irr pre) Option.none with
       | Option.none => PopResult.unboundLocalError
           ((eligiblePre irr pre).map (fun l => (payload l, label l)))
       | Option.some kd => PopResult.workItemError kd
           ((eligiblePre irr pre).map (fun l => (payload l, label l))))
      ∧ lastPay (eligiblePre irr pre) Option.none =
          ((eligiblePre irr pre).getLast?).map payload := by
  constructor
  · have h1 : (pre ++ lev :: post).filter
        (fun l => l.active = Option.some true) =
        pre.filter (fun l => l.active = Option.some true) ++
          lev :: post.filter (fun l => l.active = Option.some true) := by
      simp [List.filter_append, List.filter_cons, hact]
    have hpre2 : ∀ x ∈ pre.filter (fun l => l.active = Option.some true),
        x.name ∉ irr → rf x = false :=
      fun x hx => hpre x (List.mem_filter.1 hx).1
    unfold populate_queue
    rw [h1, popLoop_pre _ _ _ _ hpre2]
    have hcb : irr.contains lev.name = false := by
      simp [List.contains, hexc]
    simp only [eligiblePre]
    cases hlp : lastPay
        ((pre.filter (fun l => l.active = Option.some true)).filter
          (fun x => !(irr.contains x.name))) Option.none with
    | none => simp [popLoop, hexc, hcb, hrf]
    | some kd => simp [popLoop, hexc, hcb, hrf]
  · rw [lastPay_getLast? (eligiblePre irr pre) Option.none]
    cases (eligiblePre irr pre).getLast? <;> simp

/-- A second active supplier whose resolution will fail in the C9 witness. -/
def w9Lev : Leverandoer :=
  { id := PyVal.int 8, name := "Leverandoer B", active := Option.some true
    address := { administrativeAreaCode := PyVal.str "999"
                 postalCode := PyVal.str "5000" } }

/-- C9, witness: `exLev` resolves, then `w9Lev` fails; the raised
`WorkItemError` names `exLev`'s payload, the previous iteration's. -/
theorem claim_C9_witness :
    populate_queue ([exLev] ++ w9Lev :: []) []
        (fun l => pyEq l.id (PyVal.int 8)) =
      (match lastPay (eligiblePre [] [exLev]) Option.none with
       | Option.none => PopResult.unboundLocalError
           ((eligiblePre [] [exLev]).map (fun l => (payload l, label l)))
       | Option.some kd => PopResult.workItemError kd
           ((eligiblePre [] [exLev]).map (fun l => (payload l, label l))))
      ∧ lastPay (eligiblePre [] [exLev]) Option.none =
          ((eligiblePre [] [exLev]).getLast?).map payload :=
  claim_C9 [exLev] [] w9Lev [] (fun l => pyEq l.id (PyVal.int 8))
    rfl (by simp) (by decide) (by decide)

/-! ## Idempotence (claim C2) -/

/-- After `opdater_leverandoer` persisted `upd` (whose id is the found
record's id), searching the store by the same id finds `upd`. -/
theorem find?_opdater {store : List Leverandoer} {target : PyVal}
    {rel upd : Leverandoer}
    (hrel : store.find? (fun r => pyEq r.id target) = Option.some rel)
    (hid : upd.id = rel.id) :
    (opdater_leverandoer store upd).find? (fun r => pyEq r.id target) =
      Option.some upd := by
  have hrt : pyEq rel.id target = true := by
    simpa using List.find?_some (p := fun r : Leverandoer => pyEq r.id target) hrel
  unfold opdater_leverandoer
  rw [List.find?_map]
  have hcomp : ∀ x ∈ store,
      ((fun r : Leverandoer => pyEq r.id target) ∘
        (fun r => if pyEq r.id upd.id then upd else r)) x =
      (fun r : Leverandoer => pyEq r.id target) x := by
    intro x _
    simp only [Function.comp]
    by_cases hx : pyEq x.id upd.id = true
    · rw [if_pos hx]
      rw [hid] at hx
      rw [hid, hrt, pyEq_trans hx hrt]
    · rw [if_neg hx]
  rw [find?_congr store hcomp, hrel]
  simp [hid, pyEq_refl]

/-- Second run of an item whose first run performed the update: the live
record now carries the looked-up code, so the comparison on line 86 is an
equality and nothing is written or tracked. -/
theorem processItem_after_update {store : List Leverandoer}
    {mapping : List MappingEntry} {item : WItem} {b : Behavior}
    {entry : MappingEntry} {rel : Leverandoer}
    (hpost : item.data.postnummer ≠ PyVal.none)
    (hentry : mapping.find? (fun e => codeMatches e item.data.postnummer) =
      Option.some entry)
    (hrel : store.find? (fun r => pyEq r.id item.data.leverandoer_id) =
      Option.some rel) :
    process_item
        (opdater_leverandoer store (opdateretLeverandoer store rel entry))
        (opdater_leverandoer store (opdateretLeverandoer store rel entry))
        mapping item b =
      (opdater_leverandoer store (opdateretLeverandoer store rel entry),
       ItemStatus.done, []) := by
  have hupd_id : (opdateretLeverandoer store rel entry).id = rel.id := by
    simp [opdateretLeverandoer, hent_of_found hrel]
  have hfind2 : (opdater_leverandoer store
      (opdateretLeverandoer store rel entry)).find?
        (fun r => pyEq r.id item.data.leverandoer_id) =
      Option.some (opdateretLeverandoer store rel entry) :=
    find?_opdater hrel hupd_id
  have hlev2 : hent_fra_reference
      (opdater_leverandoer store (opdateretLeverandoer store rel entry))
      (opdateretLeverandoer store rel entry) =
      opdateretLeverandoer store rel entry :=
    hent_of_found hfind2
  have hcode : (opdateretLeverandoer store rel entry).address.administrativeAreaCode =
      PyVal.str (pyStr entry.Kommunenr) := by
    simp [opdateretLeverandoer]
  exact processItem_equal hpost hentry hfind2 (by rw [hlev2, hcode]; exact pyEq_refl _)

/-- One processing run of a single item against platform state `store`;
the bulk supplier list is fetched at run start, so it equals the store. -/
def run1 (store : List Leverandoer) (mapping : List MappingEntry)
    (item : WItem) (b : Behavior) :
    List Leverandoer × ItemStatus × List Event :=
  process_item store store mapping item b

/-- Processing the same item a second time, with the upstream state left by
the first run re-fetched at the second run's start. -/
def run2 (store : List Leverandoer) (mapping : List MappingEntry)
    (item : WItem) (b : Behavior) :
    List Leverandoer × ItemStatus × List Event :=
  process_item (run1 store mapping item b).1 (run1 store mapping item b).1
    mapping item b

/-- A second run after a first run that does not throw leaves the platform
state unchanged, ends done, and emits no update call and no tracking
signal, whatever the first run did. -/
theorem run2_noop (store : List Leverandoer) (mapping : List MappingEntry)
    (item : WItem) (b : Behavior) (hb : b.updateThrows = Option.none) :
    (run2 store mapping item b).1 = (run1 store mapping item b).1 ∧
    (run2 store mapping item b).2.1 = ItemStatus.done ∧
    ∀ e ∈ (run2 store mapping item b).2.2,
      e.isUpdate = false ∧ e.isTrack = false := by
  unfold run2 run1
  by_cases hpost : item.data.postnummer = PyVal.none
  · rw [processItem_missing hpost]
    cases hrok : b.reportOk <;> simp [Event.isUpdate, Event.isTrack]
  · cases hfind : mapping.find? (fun e => codeMatches e item.data.postnummer) with
    | none =>
      rw [processItem_unmapped hpost hfind]
      cases hrok : b.reportOk <;> simp [Event.isUpdate, Event.isTrack]
    | some entry =>
      cases hrel : store.find?
          (fun r => pyEq r.id item.data.leverandoer_id) with
      | none =>
        have h1 : process_item store store mapping item b =
            (store, ItemStatus.done, []) := by
          unfold process_item
          rw [kontroller_mapped hpost hfind]
          simp [kontroller_leverandoer, hrel]
        simp [h1]
      | some rel =>
        have hlev : hent_fra_reference store rel = rel := hent_of_found hrel
        by_cases heq : pyEq rel.address.administrativeAreaCode
            (PyVal.str (pyStr entry.Kommunenr)) = true
        · have h1 : process_item store store mapping item b =
              (store, ItemStatus.done, []) :=
            processItem_equal hpost hfind hrel (by rw [hlev]; exact heq)
          simp [h1]
        · have heqf : pyEq (hent_fra_reference store rel).address.administrativeAreaCode
              (PyVal.str (pyStr entry.Kommunenr)) = false := by
            rw [hlev]
            revert heq
            cases pyEq rel.address.administrativeAreaCode
              (PyVal.str (pyStr entry.Kommunenr)) <;> simp
          have h1 := processItem_update hb hpost hfind hrel heqf
          have h2 := processItem_after_update (b := b) hpost hfind hrel
          simp [h1, h2]

/-- C2: when the live record's municipality code already equals the
looked-up value, processing the item issues no update call and no tracking
signal and leaves the platform state untouched (first conjunct); and —
whatever the item's first run did, update included — processing the same
item a second time against the upstream data left by the first run changes
nothing, ends done, and fires no update and no tracking signal, so at most
one effective update happens across the two runs (remaining conjuncts). -/
theorem claim_C2 (store : List Leverandoer) (mapping : List MappingEntry)
    (item : WItem) (b : Behavior)
    (hb : b.updateThrows = Option.none) :
    (∀ (entry : MappingEntry) (rel : Leverandoer),
      item.data.postnummer ≠ PyVal.none →
      mapping.find? (fun e => codeMatches e item.data.postnummer) =
        Option.some entry →
      store.find? (fun r => pyEq r.id item.data.leverandoer_id) =
        Option.some rel →
      pyEq (hent_fra_reference store rel).address.administrativeAreaCode
        (PyVal.str (pyStr entry.Kommunenr)) = true →
      run1 store mapping item b = (store, ItemStatus.done, [])) ∧
    (run2 store mapping item b).1 = (run1 store mapping item b).1 ∧
    (run2 store mapping item b).2.1 = ItemStatus.done ∧
    ∀ e ∈ (run2 store mapping item b).2.2,
      e.isUpdate = false ∧ e.isTrack = false :=
  ⟨fun _ _ hpost hentry hrel heq => processItem_equal hpost hentry hrel heq,
   run2_noop store mapping item b hb⟩

/-- The C2 witness supplier: its live code 461 already equals the
looked-up value for postal code 5000. -/
def w2Lev : Leverandoer :=
  { id := PyVal.int 7, name := "Leverandoer A", active := Option.some true
    address := { administrativeAreaCode := PyVal.str "461"
                 postalCode := PyVal.str "5000" } }

/-- The queue item populated from `w2Lev`. -/
def w2Item : WItem :=
  { reference := "7 - Leverandoer A", data := payload w2Lev }

/-- C2, witness at a store whose live code already matches. -/
theorem claim_C2_witness :
    (∀ (entry : MappingEntry) (rel : Leverandoer),
      w2Item.data.postnummer ≠ PyVal.none →
      exMapping.find? (fun e => codeMatches e w2Item.data.postnummer) =
        Option.some entry →
      List.find? (fun r => pyEq r.id w2Item.data.leverandoer_id) [w2Lev] =
        Option.some rel →
      pyEq (hent_fra_reference [w2Lev] rel).address.administrativeAreaCode
        (PyVal.str (pyStr entry.Kommunenr)) = true →
      run1 [w2Lev] exMapping w2Item
        { reportOk := true, updateThrows := Option.none } =
        ([w2Lev], ItemStatus.done, [])) ∧
    (run2 [w2Lev] exMapping w2Item
        { reportOk := true, updateThrows := Option.none }).1 =
      (run1 [w2Lev] exMapping w2Item
        { reportOk := true, updateThrows := Option.none }).1 ∧
    (run2 [w2Lev] exMapping w2Item
        { reportOk := true, updateThrows := Option.none }).2.1 =
      ItemStatus.done ∧
    ∀ e ∈ (run2 [w2Lev] exMapping w2Item
        { reportOk := true, updateThrows := Option.none }).2.2,
      e.isUpdate = false ∧ e.isTrack = false :=
  claim_C2 [w2Lev] exMapping w2Item
    { reportOk := true, updateThrows := Option.none } rfl

end KommuneKode
